import Mathlib

/-!
Verification of the GolfCardSync OCR / analysis services.

The Python sources (src/python-ocr/main.py, src/python-analysis/main.py) are
embedded shallowly below: raw text is a Lean `String`, the regex
`re.findall(r"[0-9]+", text)` becomes an explicit maximal-digit-run scanner,
Python lists become Lean lists, single-character Python strings that stand for
mark glyphs become Lean `String`s, and the JSON dictionary returned by
`extract_round_data` is modelled both as a record and as an association list
that keeps the literal key order of the source.
-/

namespace GolfCardSync

/-- One maximal run of digit characters, accumulated in `acc` (reversed).
Models the behaviour of `re.findall(r"[0-9]+", text)` on a character list:
a run is flushed when a non-digit character is met or the input ends. -/
def digitRunsAux : List Char → List Char → List (List Char)
  | [], acc => if acc.isEmpty then [] else [acc.reverse]
  | c :: cs, acc =>
    if c.isDigit then digitRunsAux cs (c :: acc)
    else if acc.isEmpty then digitRunsAux cs []
    else acc.reverse :: digitRunsAux cs []

/-- All maximal digit runs of a character list, in order of appearance:
the token stream produced by `re.findall(r"[0-9]+", text)`. -/
def digitRuns (cs : List Char) : List (List Char) :=
  digitRunsAux cs []

/-- `int(t)` on a digit run: base-10 value of the digit characters. -/
def digitsToNat (ds : List Char) : Nat :=
  ds.foldl (fun acc c => 10 * acc + (c.toNat - Char.toNat (Char.ofNat 48))) 0

/-- `tokens = re.findall(r"[0-9]+", text)`, each run read as an integer. -/
def tokens (text : String) : List Nat :=
  (digitRuns text.toList).map digitsToNat

/-- `scores_all = [int(t) for t in tokens if 3 <= int(t) <= 9]`. -/
def scores_all (text : String) : List Nat :=
  (tokens text).filter (fun n => 3 ≤ n && n ≤ 9)

/-- `putts_all = [int(t) for t in tokens if 1 <= int(t) <= 3]`. -/
def putts_all (text : String) : List Nat :=
  (tokens text).filter (fun n => 1 ≤ n && n ≤ 3)

/-- The glyph list tested in the source's
`if ch in ["✓", "✔", "x", "X", "→", "←", "↑", "↓", "<", ">", "^", "v"]`. -/
def markGlyphs : List String :=
  ["✓", "✔", "x", "X", "→", "←", "↑", "↓", "<", ">", "^", "v"]

/-- The character-by-character scan of the source: every character of the
raw text that is one of the mark glyphs, in order of appearance. -/
def collectSymbols (text : String) : List String :=
  (text.toList.map Char.toString).filter (fun ch => markGlyphs.contains ch)

/-- `norm_symbol` of the source, branch for branch (the source also maps
the glyph "V", which the collection list never produces). -/
def norm_symbol (c : String) : String :=
  if c = "✓" ∨ c = "✔" then "✓"
  else if c = "x" ∨ c = "X" then "X"
  else if c = ">" ∨ c = "→" then "→"
  else if c = "<" ∨ c = "←" then "←"
  else if c = "^" ∨ c = "↑" then "↑"
  else if c = "v" ∨ c = "V" ∨ c = "↓" then "↓"
  else c

/-- `symbols = [norm_symbol(s) for s in symbols]`: the normalised mark
sequence of a raw text. -/
def normSymbols (text : String) : List String :=
  (collectSymbols text).map norm_symbol

/-- The source's `pad(arr, n, fill)` = `arr + [fill] * (n - len(arr))`
(Python's list repetition is empty for a non-positive count, matching
truncated subtraction on `Nat`). -/
def pad {α : Type} (arr : List α) (n : Nat) (fill : α) : List α :=
  arr ++ List.replicate (n - arr.length) fill

/-- The record assembled by `extract_round_data`. -/
structure RoundRecord where
  scores : List Nat
  putts : List Nat
  fairways : List String
  greens : List String
  raw_text : String
deriving DecidableEq

/-- `extract_round_data(text)` of src/python-ocr/main.py. -/
def extract_round_data (text : String) : RoundRecord :=
  let scores := (scores_all text).take 18
  let putts := (putts_all text).take 18
  let symbols := normSymbols text
  let fairways := symbols.take 18
  let greens := (symbols.drop 18).take 18
  { scores := pad scores 18 0
    putts := pad putts 18 0
    fairways := pad fairways 18 ""
    greens := pad greens 18 ""
    raw_text := text }

/-- JSON values occurring in the service responses. -/
inductive JVal where
  | nats : List Nat → JVal
  | strs : List String → JVal
  | str : String → JVal
deriving DecidableEq

/-- The dictionary literal returned by `extract_round_data`, with the key
order of the source (lines 67–73 of src/python-ocr/main.py). -/
def extract_round_data_json (text : String) : List (String × JVal) :=
  let r := extract_round_data text
  [("scores", JVal.nats r.scores),
   ("putts", JVal.nats r.putts),
   ("fairways", JVal.strs r.fairways),
   ("greens", JVal.strs r.greens),
   ("raw_text", JVal.str r.raw_text)]

/-- An HTTP response of the `/ocr` endpoint: either `JSONResponse(data)`
(a JSON object) or `JSONResponse({"error": str(e)}, status_code=500)`. -/
inductive Response where
  | record : List (String × JVal) → Response
  | errorResponse : String → Response
deriving DecidableEq

/-- Whether a response carries a round record rather than an error object. -/
def Response.isRecord : Response → Bool
  | .record _ => true
  | .errorResponse _ => false

/-- `ocr_scorecard` of src/python-ocr/main.py. The two fallible external
steps inside its `try` block are passed as explicit outcomes: `decode` is
the image decoding done by `preprocess_image` (which raises when the bytes
are not an image) and `recognize` is the `pytesseract.image_to_string`
call on the decoded image (which raises when the recogniser is
unavailable). Any raised exception reaches the single `except` clause,
which returns `JSONResponse({"error": str(e)}, status_code=500)`. -/
def ocr_scorecard (decode : Except String Unit)
    (recognize : Except String String) : Response :=
  match decode with
  | .error e => .errorResponse e
  | .ok _ =>
    match recognize with
    | .error e => .errorResponse e
    | .ok text => .record (extract_round_data_json text)

/-- The tendency list built by `summarize_direction` of
src/python-analysis/main.py before joining: each direction is appended
exactly when its count strictly exceeds the opposite count and is
positive. -/
def summarize_direction_tendencies (symbols : List String) : List String :=
  let left := symbols.count "←"
  let right := symbols.count "→"
  let long := symbols.count "↑"
  let short := symbols.count "↓"
  ((((if left > right ∧ left > 0 then ["left"] else []) ++
     (if right > left ∧ right > 0 then ["right"] else [])) ++
     (if long > short ∧ long > 0 then ["long"] else [])) ++
     (if short > long ∧ short > 0 then ["short"] else []))

/-- `summarize_direction` of src/python-analysis/main.py. -/
def summarize_direction (symbols : List String) : String :=
  let tendencies := summarize_direction_tendencies symbols
  if tendencies = [] then "no clear directional bias"
  else String.intercalate ", " tendencies

/-- The canonical mark alphabet: the values returned by the branches of
`norm_symbol`. -/
def canonicalMarks : List String := ["✓", "X", "→", "←", "↑", "↓"]

/-- Scenario B raw text of the specification. -/
def scenarioB : String := "✓ x → ← ^ v"

/-! ## Helper lemmas -/

lemma pad_take18_eq {α : Type} (P : List α) (fill : α) :
    pad (P.take 18) 18 fill =
      if P.length < 18 then P ++ List.replicate (18 - P.length) fill
      else P.take 18 := by
  by_cases h : P.length < 18
  · rw [if_pos h, pad, List.take_of_length_le (Nat.le_of_lt h)]
  · rw [if_neg h, pad]
    have h18 : (P.take 18).length = 18 := by rw [List.length_take]; omega
    rw [h18, Nat.sub_self, List.replicate_zero, List.append_nil]

lemma pad_take18_length {α : Type} (P : List α) (fill : α) :
    (pad (P.take 18) 18 fill).length = 18 := by
  rw [pad, List.length_append, List.length_replicate, List.length_take]
  omega

lemma getD_replicate_self {α : Type} (r : Nat) (d : α) (n : Nat) :
    (List.replicate r d).getD n d = d := by
  rw [List.getD_eq_getD_get?, List.get?_eq_getElem?]
  simp

lemma pad_take18_getD {α : Type} (S : List α) (d : α) (i : Nat) (hi : i < 18) :
    (pad (S.take 18) 18 d).getD i d = S.getD i d := by
  rw [pad]
  by_cases h : i < (S.take 18).length
  · rw [List.getD_append _ _ _ _ h]
    have hS : i < S.length := by rw [List.length_take] at h; omega
    rw [List.getD_eq_getElem _ _ h, List.getD_eq_getElem _ _ hS]
    simp
  · push_neg at h
    rw [List.getD_append_right _ _ _ _ h, getD_replicate_self]
    have hS : S.length ≤ i := by rw [List.length_take] at h; omega
    rw [List.getD_eq_default _ _ hS]

lemma digitRunsAux_runs_wf (cs : List Char) : ∀ acc : List Char,
    (∀ c ∈ acc, c.isDigit = true) →
    ∀ r ∈ digitRunsAux cs acc, r ≠ [] ∧ ∀ c ∈ r, c.isDigit = true := by
  induction cs with
  | nil =>
    intro acc hacc r hr
    simp only [digitRunsAux] at hr
    split at hr
    · simp at hr
    · next hne =>
      rw [List.mem_singleton] at hr
      subst hr
      refine ⟨?_, fun c hc => hacc c (List.mem_reverse.mp hc)⟩
      intro hnil
      rw [List.reverse_eq_nil_iff] at hnil
      rw [hnil] at hne
      simp at hne
  | cons c cs ih =>
    intro acc hacc r hr
    simp only [digitRunsAux] at hr
    split at hr
    · next hdig =>
      refine ih (c :: acc) ?_ r hr
      intro x hx
      rcases List.mem_cons.mp hx with hx | hx
      · rw [hx]; exact hdig
      · exact hacc x hx
    · split at hr
      · exact ih [] (by simp) r hr
      · next hne =>
        rcases List.mem_cons.mp hr with hr | hr
        · subst hr
          refine ⟨?_, fun x hx => hacc x (List.mem_reverse.mp hx)⟩
          intro hnil
          rw [List.reverse_eq_nil_iff] at hnil
          rw [hnil] at hne
          simp at hne
        · exact ih [] (by simp) r hr

/-! ## Claims -/

/-- C1: for every raw text, `extract_round_data` returns four arrays of
length exactly 18; a pool with fewer than 18 eligible values is copied in
order and padded on the right with the field's default (`0` for numbers,
`""` for marks), and a pool with 18 or more eligible values contributes
exactly its first 18 values in order of appearance. The pools are the
score pool, the putt pool, the normalised mark sequence (fairways) and
its entries beyond the first 18 (greens). -/
theorem extract_round_data_shape (text : String) :
    ((extract_round_data text).scores.length = 18 ∧
     (extract_round_data text).putts.length = 18 ∧
     (extract_round_data text).fairways.length = 18 ∧
     (extract_round_data text).greens.length = 18) ∧
    ((extract_round_data text).scores =
      if (scores_all text).length < 18
      then scores_all text ++ List.replicate (18 - (scores_all text).length) 0
      else (scores_all text).take 18) ∧
    ((extract_round_data text).putts =
      if (putts_all text).length < 18
      then putts_all text ++ List.replicate (18 - (putts_all text).length) 0
      else (putts_all text).take 18) ∧
    ((extract_round_data text).fairways =
      if (normSymbols text).length < 18
      then normSymbols text ++ List.replicate (18 - (normSymbols text).length) ""
      else (normSymbols text).take 18) ∧
    ((extract_round_data text).greens =
      if ((normSymbols text).drop 18).length < 18
      then (normSymbols text).drop 18 ++
             List.replicate (18 - ((normSymbols text).drop 18).length) ""
      else ((normSymbols text).drop 18).take 18) := by
  refine ⟨⟨?_, ?_, ?_, ?_⟩, ?_, ?_, ?_, ?_⟩ <;>
    simp only [extract_round_data] <;>
    first
      | exact pad_take18_length _ _
      | exact pad_take18_eq _ _

/-- C2: the score pool is exactly the maximal digit-run tokens with value
in `[3, 9]` and the putt pool exactly those with value in `[1, 3]`; both
pools are order-preserving selections (sublists) of the same token
stream, scanned left to right, so a token equal to `3` lands in both
pools simultaneously; and every token really is a nonempty run of digit
characters. -/
theorem token_pools_classification (text : String) :
    scores_all text = (tokens text).filter (fun n => 3 ≤ n && n ≤ 9) ∧
    putts_all text = (tokens text).filter (fun n => 1 ≤ n && n ≤ 3) ∧
    List.Sublist (scores_all text) (tokens text) ∧
    List.Sublist (putts_all text) (tokens text) ∧
    (∀ n : Nat, n ∈ scores_all text ↔ n ∈ tokens text ∧ 3 ≤ n ∧ n ≤ 9) ∧
    (∀ n : Nat, n ∈ putts_all text ↔ n ∈ tokens text ∧ 1 ≤ n ∧ n ≤ 3) ∧
    (3 ∈ tokens text ↔ 3 ∈ scores_all text ∧ 3 ∈ putts_all text) ∧
    ((digitRuns text.toList).all fun r => !r.isEmpty && r.all Char.isDigit)
      = true := by
  have hs : ∀ n : Nat, n ∈ scores_all text ↔ n ∈ tokens text ∧ 3 ≤ n ∧ n ≤ 9 := by
    intro n
    simp [scores_all, List.mem_filter, and_assoc]
  have hp : ∀ n : Nat, n ∈ putts_all text ↔ n ∈ tokens text ∧ 1 ≤ n ∧ n ≤ 3 := by
    intro n
    simp [putts_all, List.mem_filter, and_assoc]
  refine ⟨rfl, rfl, List.filter_sublist _, List.filter_sublist _, hs, hp, ?_, ?_⟩
  · constructor
    · intro h
      exact ⟨(hs 3).mpr ⟨h, by omega, by omega⟩, (hp 3).mpr ⟨h, by omega, by omega⟩⟩
    · intro h
      exact ((hs 3).mp h.1).1
  · rw [List.all_eq_true]
    intro r hr
    obtain ⟨h1, h2⟩ := digitRunsAux_runs_wf text.toList [] (by simp) r hr
    rw [Bool.and_eq_true, Bool.not_eq_true', List.all_eq_true]
    exact ⟨by simpa [List.isEmpty_iff] using h1, h2⟩

/-- C3: for the raw text `"✓ x → ← ^ v"` the normalised mark sequence is
`["✓", "X", "→", "←", "↑", "↓"]` (Hit, Miss-Generic, Right, Left, Long,
Short in the code's canonical alphabet), `fairways` is that sequence
padded to 18 with the empty mark and `greens` is 18 empty marks; in
general, at every hole slot `i < 18`, `fairways` agrees with entry `i`
of the normalised mark sequence and `greens` with entry `18 + i`
(entries 19–36 in 1-based counting), slots beyond the sequence holding
the empty mark. -/
theorem mark_alignment (text : String) :
    normSymbols scenarioB = ["✓", "X", "→", "←", "↑", "↓"] ∧
    (extract_round_data scenarioB).fairways =
      ["✓", "X", "→", "←", "↑", "↓"] ++ List.replicate 12 "" ∧
    (extract_round_data scenarioB).greens = List.replicate 18 "" ∧
    (∀ i : Fin 18,
      (extract_round_data text).fairways.getD i "" =
        (normSymbols text).getD i "" ∧
      (extract_round_data text).greens.getD i "" =
        (normSymbols text).getD (18 + i) "") := by
  refine ⟨by decide, by decide, by decide, ?_⟩
  intro i
  constructor
  · simp only [extract_round_data]
    exact pad_take18_getD _ _ _ i.isLt
  · simp only [extract_round_data]
    rw [pad_take18_getD _ _ _ i.isLt]
    rw [List.getD_eq_getD_get?, List.getD_eq_getD_get?, List.get?_eq_getElem?,
      List.get?_eq_getElem?, List.getElem?_drop]

/-- C4 counterexample: at the concrete successful invocation on empty
recognised text, the returned mapping's key sequence is exactly
`scores, putts, fairways, greens, raw_text`: none of the derived
aggregate keys `front9_total`, `back9_total`, `total`, `front9_putts`,
`back9_putts`, `total_putts` nor `validation_notes` is present. -/
theorem round_json_missing_aggregates :
    ocr_scorecard (Except.ok ()) (Except.ok "") =
      Response.record (extract_round_data_json "") ∧
    (extract_round_data_json "").map Prod.fst =
      ["scores", "putts", "fairways", "greens", "raw_text"] ∧
    ((extract_round_data_json "").map Prod.fst).contains "front9_total" = false ∧
    ((extract_round_data_json "").map Prod.fst).contains "back9_total" = false ∧
    ((extract_round_data_json "").map Prod.fst).contains "total" = false ∧
    ((extract_round_data_json "").map Prod.fst).contains "front9_putts" = false ∧
    ((extract_round_data_json "").map Prod.fst).contains "back9_putts" = false ∧
    ((extract_round_data_json "").map Prod.fst).contains "total_putts" = false ∧
    ((extract_round_data_json "").map Prod.fst).contains "validation_notes"
      = false := by
  refine ⟨rfl, rfl, ?_, ?_, ?_, ?_, ?_, ?_, ?_⟩ <;> decide

/-- C4 amended: for every successful invocation the returned mapping
contains exactly the keys `scores`, `putts`, `fairways`, `greens`,
`raw_text`, in that order; no derived aggregate keys and no
`validation_notes` key are produced, so the aggregate identities of the
claim are not statable of this output. -/
theorem round_json_keys (text : String) :
    (extract_round_data_json text).map Prod.fst =
      ["scores", "putts", "fairways", "greens", "raw_text"] ∧
    ((extract_round_data_json text).map Prod.fst).contains "front9_total" = false ∧
    ((extract_round_data_json text).map Prod.fst).contains "back9_total" = false ∧
    ((extract_round_data_json text).map Prod.fst).contains "total" = false ∧
    ((extract_round_data_json text).map Prod.fst).contains "front9_putts" = false ∧
    ((extract_round_data_json text).map Prod.fst).contains "back9_putts" = false ∧
    ((extract_round_data_json text).map Prod.fst).contains "total_putts" = false ∧
    ((extract_round_data_json text).map Prod.fst).contains "validation_notes"
      = false := by
  refine ⟨rfl, ?_, ?_, ?_, ?_, ?_, ?_, ?_⟩ <;> rfl

/-- C5 counterexample: when the recogniser raises (here with message
"recognizer unavailable" on a successfully decoded image), the endpoint
returns the error object carrying that message — not any fallback round
record. -/
theorem recognizer_failure_no_fallback :
    ocr_scorecard (Except.ok ()) (Except.error "recognizer unavailable") =
      Response.errorResponse "recognizer unavailable" ∧
    (ocr_scorecard (Except.ok ())
        (Except.error "recognizer unavailable")).isRecord = false :=
  ⟨rfl, rfl⟩

/-- C5 amended: whenever the text-recognition step raises an error, the
endpoint's `except` clause returns a structured error object carrying
the exception's message (HTTP 500); no fallback RoundRecord and no
validation note are produced, so the failure is surfaced to the caller
rather than degraded gracefully. -/
theorem recognizer_failure_returns_error (e : String) :
    ocr_scorecard (Except.ok ()) (Except.error e) = Response.errorResponse e ∧
    (ocr_scorecard (Except.ok ()) (Except.error e)).isRecord = false :=
  ⟨rfl, rfl⟩

/-- C6: when the input bytes cannot be decoded as an image, the
invocation is terminal: whatever the recogniser would have done, the
endpoint returns a structured error object carrying the decode error's
message and produces no RoundRecord. -/
theorem decode_failure_terminal (e : String) (recognize : Except String String) :
    ocr_scorecard (Except.error e) recognize = Response.errorResponse e ∧
    (ocr_scorecard (Except.error e) recognize).isRecord = false :=
  ⟨rfl, rfl⟩

/-- C7: `norm_symbol` is idempotent on every glyph of the supported
alphabet, and normalising an already-canonical symbol returns it
unchanged. -/
theorem norm_symbol_idempotent :
    (markGlyphs.all fun g => norm_symbol (norm_symbol g) == norm_symbol g)
      = true ∧
    (canonicalMarks.all fun g => norm_symbol g == g) = true := by
  decide

/-- C8 counterexample: the record produced for empty raw text carries no
`validation_notes` (nor `validationNotes`) key at all, so no advisory
noting that no data was recognised is recorded anywhere. -/
theorem empty_text_no_advisory :
    ((extract_round_data_json "").map Prod.fst).contains "validation_notes"
      = false ∧
    ((extract_round_data_json "").map Prod.fst).contains "validationNotes"
      = false := by
  decide

/-- C8 amended: for empty raw text the produced record has `scores` and
`putts` equal to 18 zeros and all fairway and green marks equal to the
empty default; the mapping's keys are exactly `scores, putts, fairways,
greens, raw_text`, so it contains no validation notes and hence no
advisory about unrecognised data. -/
theorem empty_text_record :
    (extract_round_data "").scores = List.replicate 18 0 ∧
    (extract_round_data "").putts = List.replicate 18 0 ∧
    (extract_round_data "").fairways = List.replicate 18 "" ∧
    (extract_round_data "").greens = List.replicate 18 "" ∧
    (extract_round_data_json "").map Prod.fst =
      ["scores", "putts", "fairways", "greens", "raw_text"] := by
  refine ⟨?_, ?_, ?_, ?_, rfl⟩ <;> decide

/-- C9: every element of the returned `scores` array is `0` or lies in
`[3, 9]`, and every element of the returned `putts` array is `0` or lies
in `[1, 3]`: only range-eligible tokens enter the pools and padding
uses `0`. -/
theorem scores_putts_range (text : String) :
    ((extract_round_data text).scores.all fun n => n == 0 || (3 ≤ n && n ≤ 9))
      = true ∧
    ((extract_round_data text).putts.all fun n => n == 0 || (1 ≤ n && n ≤ 3))
      = true := by
  constructor <;>
  · simp only [extract_round_data, pad, List.all_eq_true]
    intro n hn
    rcases List.mem_append.mp hn with h | h
    · have hmem := List.mem_filter.mp (List.take_subset _ _ h)
      simp only [Bool.or_eq_true, Bool.and_eq_true, decide_eq_true_eq] at hmem ⊢
      right
      simpa using hmem.2
    · have h0 := List.eq_of_mem_replicate h
      simp [h0]

/-- C10: `summarize_direction` never reports contradictory tendencies:
the tendency list it joins into its result never contains both "left"
and "right", and never both "long" and "short", because each direction
is included only when its count strictly exceeds the opposite
direction's count. -/
theorem summarize_direction_consistent (symbols : List String) :
    (((summarize_direction_tendencies symbols).contains "left") &&
     ((summarize_direction_tendencies symbols).contains "right")) = false ∧
    (((summarize_direction_tendencies symbols).contains "long") &&
     ((summarize_direction_tendencies symbols).contains "short")) = false := by
  constructor <;>
  · simp only [summarize_direction_tendencies]
    split_ifs <;> first | decide | omega

end GolfCardSync
